import Mathlib

/-!
# Verification of the project record-management application

Shallow embedding of the core of the application:
* the Express/SQLite backend (`server/database.js` + the Express route
  handlers): CRUD operations over the `projects` table;
* the React `ProjectForm` component: the change handler that keeps
  `employeesTotal` derived, the duplicate-detection effect and
  `validateForm`;
* the `Dashboard` component: the aggregation of dashboard statistics.

JavaScript strings are modelled as Lean `String`, JavaScript numbers
occurring as employee counts as `Int` (they are integers in every execution
path considered; the one place where IEEE-754 special values matter - the
gender-percentage division - is modelled explicitly by `JSNum` below).
The SQLite table is modelled as a `List Project`.
-/

namespace Spec2Proof

/-- A row of the `projects` table / a `Project` object of the frontend.
Field names and order follow the `CREATE TABLE projects` statement in
`server/database.js`. -/
structure Project where
  id : String
  companyName : String
  sector : String
  subSector : String
  region : String
  zone : String
  woreda : String
  approvalDate : String
  owner : String
  advisorCompany : String
  evaluator : String
  grantedBy : String
  contactPerson : String
  ownerPhone : String
  companyEmail : String
  companyWebsite : String
  projectStatus : String
  employeesMale : Int
  employeesFemale : Int
  employeesTotal : Int
  createdAt : String
  updatedAt : String
  deriving DecidableEq, Repr

/-- The `metadata` object served by `GET /api/metadata` (four fixed
enumerations). -/
structure Metadata where
  regions : List String
  sectors : List String
  subSectors : List String
  projectStatuses : List String
  deriving DecidableEq, Repr

/-! ## The form state and its change handler (`ProjectForm`)

`formData` of the `ProjectForm` component: every field the form edits.
String-valued inputs stay strings; the three employee fields are numbers
(initialised to `0` in the `useState` call). -/

structure FormData where
  companyName : String
  sector : String
  subSector : String
  region : String
  zone : String
  woreda : String
  approvalDate : String
  owner : String
  advisorCompany : String
  evaluator : String
  grantedBy : String
  contactPerson : String
  ownerPhone : String
  companyEmail : String
  companyWebsite : String
  projectStatus : String
  employeesMale : Int
  employeesFemale : Int
  employeesTotal : Int
  deriving DecidableEq, Repr

/-- The initial `useState` value of `formData`: all strings empty, all
employee counts `0`. -/
def initialFormData : FormData :=
  { companyName := "", sector := "", subSector := "", region := "", zone := ""
    woreda := "", approvalDate := "", owner := "", advisorCompany := ""
    evaluator := "", grantedBy := "", contactPerson := "", ownerPhone := ""
    companyEmail := "", companyWebsite := "", projectStatus := ""
    employeesMale := 0, employeesFemale := 0, employeesTotal := 0 }

/-- The computed-property assignment `{ ...prev, [name]: name.includes('employees')
? Number(value) : value }` of `handleChange`, written out per field name.
`number` is the JavaScript `Number()` conversion applied to the raw input
string (kept abstract: no property proved here depends on how a particular
string parses).  A `name` that is none of the form's fields leaves the
modelled state unchanged (in JavaScript it would add an expando property
that nothing reads). -/
def setField (number : String → Int) (prev : FormData) (name value : String) :
    FormData :=
  match name with
  | "companyName" => { prev with companyName := value }
  | "sector" => { prev with sector := value }
  | "subSector" => { prev with subSector := value }
  | "region" => { prev with region := value }
  | "zone" => { prev with zone := value }
  | "woreda" => { prev with woreda := value }
  | "approvalDate" => { prev with approvalDate := value }
  | "owner" => { prev with owner := value }
  | "advisorCompany" => { prev with advisorCompany := value }
  | "evaluator" => { prev with evaluator := value }
  | "grantedBy" => { prev with grantedBy := value }
  | "contactPerson" => { prev with contactPerson := value }
  | "ownerPhone" => { prev with ownerPhone := value }
  | "companyEmail" => { prev with companyEmail := value }
  | "companyWebsite" => { prev with companyWebsite := value }
  | "projectStatus" => { prev with projectStatus := value }
  | "employeesMale" => { prev with employeesMale := number value }
  | "employeesFemale" => { prev with employeesFemale := number value }
  | "employeesTotal" => { prev with employeesTotal := number value }
  | _ => prev

/-- `handleChange` of `ProjectForm`: spreads the changed field into the
previous state and, when the changed field is `employeesMale` or
`employeesFemale`, recomputes `employeesTotal = male + female` from the new
value of the changed field and the previous value of the other one. -/
def handleChange (number : String → Int) (prev : FormData) (name value : String) :
    FormData :=
  let newData := setField number prev name value
  if name = "employeesMale" ∨ name = "employeesFemale" then
    let male := if name = "employeesMale" then number value else prev.employeesMale
    let female := if name = "employeesFemale" then number value else prev.employeesFemale
    { newData with employeesTotal := male + female }
  else
    newData

/-- The derived-total invariant of the form state. -/
def totalInvariant (fd : FormData) : Prop :=
  fd.employeesTotal = fd.employeesMale + fd.employeesFemale

/-- C1: `employeesTotal` is derived.  The initial form state satisfies
`employeesTotal = employeesMale + employeesFemale`; whenever `employeesMale`
or `employeesFemale` changes, `handleChange` recomputes `employeesTotal` to
the sum of the new values; and a change to any other field of the form (the
`employeesTotal` input itself is rendered `readOnly`, so it never fires a
change event) preserves the invariant.  Hence the invariant holds in every
state the form displays or submits. -/
theorem handleChange_total_invariant :
    totalInvariant initialFormData ∧
    (∀ (number : String → Int) (prev : FormData) (name value : String),
      name ≠ "employeesTotal" →
      totalInvariant prev →
      totalInvariant (handleChange number prev name value)) ∧
    (∀ (number : String → Int) (prev : FormData) (value : String),
      (handleChange number prev "employeesMale" value).employeesTotal =
        number value + prev.employeesFemale ∧
      (handleChange number prev "employeesFemale" value).employeesTotal =
        prev.employeesMale + number value) := by
  refine ⟨rfl, ?_, ?_⟩
  · intro number prev name value hname hprev
    unfold totalInvariant at *
    unfold handleChange
    by_cases hm : name = "employeesMale"
    · subst hm; simp [setField]
    · by_cases hf : name = "employeesFemale"
      · subst hf; simp [setField]
      · simp only [hm, hf, or_self, if_false]
        unfold setField
        split <;> simp_all
  · intro number prev value
    constructor <;> simp [handleChange, setField]

/-- Witness for C1: changing `employeesFemale` to a value parsing to `2`
in a state with `employeesMale = 3` yields `employeesTotal = 5`. -/
theorem handleChange_total_invariant_witness :
    totalInvariant
      (handleChange (fun _ => 2)
        { initialFormData with employeesMale := 3, employeesTotal := 3 }
        "employeesFemale" "2") ∧
    (handleChange (fun _ => 2)
        { initialFormData with employeesMale := 3, employeesTotal := 3 }
        "employeesFemale" "2").employeesTotal = 5 := by
  refine ⟨handleChange_total_invariant.2.1 (fun _ => 2)
      { initialFormData with employeesMale := 3, employeesTotal := 3 }
      "employeesFemale" "2" (by decide) (by simp [totalInvariant, initialFormData]),
    by simp [handleChange, setField, initialFormData]⟩

/-! ## Duplicate detection (`ProjectForm`'s duplicate-check effect) -/

/-- JavaScript's `String.prototype.toLowerCase()`, modelled character-wise
(faithful on the ASCII letters occurring in company names here). -/
def jsToLower (s : String) : String :=
  ⟨s.data.map Char.toLower⟩

/-- The predicate passed to `existingProjects.find(...)` in the
duplicate-check effect: same `companyName` compared via `toLowerCase()`,
identical `sector` and `region`, and - when a project is being edited
(`project` non-null) - a different `id` (`!project || p.id !== project.id`). -/
def isDuplicateOf (fd : FormData) (project : Option Project) (p : Project) : Bool :=
  jsToLower p.companyName == jsToLower fd.companyName &&
  p.sector == fd.sector &&
  p.region == fd.region &&
  (match project with
   | none => true
   | some pr => p.id != pr.id)

/-- The duplicate-check effect's outcome for `isDuplicateBlocked`: the scan
only runs when `formData.companyName && formData.sector && formData.region`
is truthy (all three non-empty); otherwise the flag is reset to `false`. -/
def duplicateBlocked (fd : FormData) (existing : List Project)
    (project : Option Project) : Bool :=
  if fd.companyName ≠ "" ∧ fd.sector ≠ "" ∧ fd.region ≠ "" then
    (existing.find? (isDuplicateOf fd project)).isSome
  else
    false

/-- A stored record whose `companyName` is the empty string (the server
accepts arbitrary bodies, so such a row can exist in the table). -/
def blankNameProject : Project :=
  { id := "1", companyName := "", sector := "Health", subSector := "Agroprocessing"
    region := "Afar", zone := "Z1", woreda := "W1", approvalDate := "2024-01-01"
    owner := "O", advisorCompany := "", evaluator := "", grantedBy := ""
    contactPerson := "C", ownerPhone := "0911000000", companyEmail := "a@b.c"
    companyWebsite := "", projectStatus := "Planning", employeesMale := 1
    employeesFemale := 1, employeesTotal := 2
    createdAt := "2024-01-01T00:00:00.000Z", updatedAt := "2024-01-01T00:00:00.000Z" }

/-- A candidate form state whose (companyName, sector, region) triple agrees
with `blankNameProject`: company name empty, sector and region selected. -/
def blankNameCandidate : FormData :=
  { initialFormData with sector := "Health", region := "Afar" }

/-- Counterexample to C3 as stated: the existing set holds a record (not the
one being edited - nothing is being edited) whose `companyName` equals the
candidate's case-insensitively and whose `sector` and `region` equal the
candidate's exactly, yet the blocked flag is NOT set, because the effect
only scans when all three candidate key fields are non-empty. -/
theorem duplicateBlocked_not_iff_on_blank_name :
    duplicateBlocked blankNameCandidate [blankNameProject] none = false ∧
    blankNameProject ∈ [blankNameProject] ∧
    jsToLower blankNameProject.companyName = jsToLower blankNameCandidate.companyName ∧
    blankNameProject.sector = blankNameCandidate.sector ∧
    blankNameProject.region = blankNameCandidate.region ∧
    (∀ pr : Project, (none : Option Project) = some pr → blankNameProject.id ≠ pr.id) := by
  refine ⟨by decide, by decide, by decide, by decide, by decide, ?_⟩
  intro pr h
  exact Option.noConfusion h

/-- C3 amended: the blocked flag is set iff the candidate's `companyName`,
`sector` and `region` are all non-empty AND some existing record other than
the one being edited matches the candidate's triple (companyName
case-insensitively, sector and region exactly).  In particular (second
conjunct) editing a record with its own unchanged key fields is never
flagged when every triple match in the existing set is the edited record
itself. -/
theorem duplicateBlocked_iff :
    (∀ (fd : FormData) (existing : List Project) (project : Option Project),
      duplicateBlocked fd existing project = true ↔
        (fd.companyName ≠ "" ∧ fd.sector ≠ "" ∧ fd.region ≠ "" ∧
         ∃ p ∈ existing,
           jsToLower p.companyName = jsToLower fd.companyName ∧
           p.sector = fd.sector ∧ p.region = fd.region ∧
           (∀ pr : Project, project = some pr → p.id ≠ pr.id))) ∧
    (∀ (fd : FormData) (existing : List Project) (r : Project),
      fd.companyName = r.companyName → fd.sector = r.sector → fd.region = r.region →
      (∀ p ∈ existing,
        jsToLower p.companyName = jsToLower fd.companyName → p.sector = fd.sector →
        p.region = fd.region → p.id = r.id) →
      duplicateBlocked fd existing (some r) = false) := by
  have key : ∀ (fd : FormData) (existing : List Project) (project : Option Project),
      duplicateBlocked fd existing project = true ↔
        (fd.companyName ≠ "" ∧ fd.sector ≠ "" ∧ fd.region ≠ "" ∧
         ∃ p ∈ existing,
           jsToLower p.companyName = jsToLower fd.companyName ∧
           p.sector = fd.sector ∧ p.region = fd.region ∧
           (∀ pr : Project, project = some pr → p.id ≠ pr.id)) := by
    intro fd existing project
    unfold duplicateBlocked
    split
    · rename_i hkeys
      rw [List.find?_isSome]
      constructor
      · rintro ⟨p, hp, hdup⟩
        unfold isDuplicateOf at hdup
        simp only [Bool.and_eq_true, beq_iff_eq] at hdup
        obtain ⟨⟨⟨hname, hsec⟩, hreg⟩, hrest⟩ := hdup
        refine ⟨hkeys.1, hkeys.2.1, hkeys.2.2, p, hp, hname, hsec, hreg, ?_⟩
        intro pr hpr
        subst hpr
        simpa using hrest
      · rintro ⟨-, -, -, p, hp, hname, hsec, hreg, hid⟩
        refine ⟨p, hp, ?_⟩
        unfold isDuplicateOf
        simp only [Bool.and_eq_true, beq_iff_eq]
        refine ⟨⟨⟨hname, hsec⟩, hreg⟩, ?_⟩
        cases project with
        | none => rfl
        | some pr => simpa using hid pr rfl
    · rename_i hkeys
      push_neg at hkeys
      constructor
      · intro h; exact absurd h (by simp)
      · rintro ⟨h1, h2, h3, -⟩
        exact absurd (hkeys h1 h2) h3
  refine ⟨key, ?_⟩
  intro fd existing r h1 h2 h3 honly
  by_contra hblocked
  rw [Bool.not_eq_false, key] at hblocked
  obtain ⟨-, -, -, p, hp, hname, hsec, hreg, hid⟩ := hblocked
  exact hid r rfl (honly p hp hname hsec hreg)

/-- Witness for C3 (amended): a fresh candidate `"acme"/Health/Afar` against
an existing record `"Acme"/Health/Afar` (different spelling, no editing) is
blocked; and editing `blankNameProject`... rather: editing a record whose
only triple match in the set is itself is not blocked. -/
theorem duplicateBlocked_iff_witness :
    duplicateBlocked
      { initialFormData with companyName := "acme", sector := "Health", region := "Afar" }
      [{ blankNameProject with companyName := "Acme" }] none = true ∧
    duplicateBlocked
      { initialFormData with companyName := "Acme", sector := "Health", region := "Afar" }
      [{ blankNameProject with companyName := "Acme" }]
      (some { blankNameProject with companyName := "Acme" }) = false := by
  constructor
  · exact (duplicateBlocked_iff.1 _ _ _).mpr
      ⟨by decide, by decide, by decide,
       { blankNameProject with companyName := "Acme" }, by decide, by decide, by decide,
       by decide, fun pr h => Option.noConfusion h⟩
  · exact duplicateBlocked_iff.2 _ _ _ (by decide) (by decide) (by decide)
      (fun p hp _ _ _ => by
        have : p = { blankNameProject with companyName := "Acme" } := by
          simpa using hp
        rw [this])

/-! ## Field validation (`ProjectForm.validateForm`) -/

/-- JavaScript's `String.prototype.trim()`: strip leading and trailing
whitespace (faithful on the ASCII whitespace relevant here). -/
def jsTrim (s : String) : String :=
  ⟨((s.data.dropWhile Char.isWhitespace).reverse.dropWhile Char.isWhitespace).reverse⟩

/-- A character matching the regex class `\S`. -/
def isNonSpace (c : Char) : Bool :=
  !c.isWhitespace

/-- `/\S+@\S+\.\S+/.test(s)`: an (unanchored) match of the regex exists iff
some `'@'` at index `j` and some `'.'` at index `k ≥ j + 2` have a non-space
character immediately before the `'@'`, only non-space characters strictly
between the `'@'` and the `'.'`, and a non-space character immediately after
the `'.'` (the three `\S+` groups can always be shrunk to exactly these
spans, and `'@'`/`'.'` themselves are non-space, so this search is exactly
regex matchability). -/
def emailMatches (s : String) : Bool :=
  let cs := s.data
  let n := cs.length
  (List.range n).any fun j =>
    (List.range n).any fun k =>
      decide (j + 2 ≤ k) &&
      (cs.getD j ' ' == '@') &&
      (cs.getD k ' ' == '.') &&
      decide (1 ≤ j) &&
      isNonSpace (cs.getD (j - 1) ' ') &&
      decide (k + 1 < n) &&
      isNonSpace (cs.getD (k + 1) ' ') &&
      ((List.range' (j + 1) (k - (j + 1))).all fun m => isNonSpace (cs.getD m ' '))

/-- The distinct error messages `validateForm` can put into `newErrors`:
`t('form.required')`, `'Invalid email format'` and the duplicate-blocked
message (the i18n layer maps these to display strings; only their identity
matters here). -/
inductive ErrMsg where
  | required
  | invalidEmail
  | duplicate
  deriving DecidableEq, Repr

/-- One conditional entry of the `newErrors` object. -/
def errIf (c : Prop) [Decidable c] (key : String) (msg : ErrMsg) :
    List (String × ErrMsg) :=
  if c then [(key, msg)] else []

/-- The `companyEmail` entry: `required` when empty after trimming, else
`Invalid email format` when the regex does not match. -/
def emailErrors (fd : FormData) : List (String × ErrMsg) :=
  if jsTrim fd.companyEmail = "" then [("companyEmail", ErrMsg.required)]
  else if emailMatches fd.companyEmail then []
  else [("companyEmail", ErrMsg.invalidEmail)]

/-- The `newErrors` object built by `validateForm`, as its entry list in
insertion order.  The five select/date-valued fields (`sector`, `subSector`,
`region`, `approvalDate`, `projectStatus`) are tested with plain JavaScript
truthiness (`!formData.sector`), the free-text fields with
`!formData.x.trim()`. -/
def validateErrors (fd : FormData) (blocked : Bool) : List (String × ErrMsg) :=
  errIf (jsTrim fd.companyName = "") "companyName" ErrMsg.required ++
  errIf (fd.sector = "") "sector" ErrMsg.required ++
  errIf (fd.subSector = "") "subSector" ErrMsg.required ++
  errIf (fd.region = "") "region" ErrMsg.required ++
  errIf (jsTrim fd.zone = "") "zone" ErrMsg.required ++
  errIf (jsTrim fd.woreda = "") "woreda" ErrMsg.required ++
  errIf (fd.approvalDate = "") "approvalDate" ErrMsg.required ++
  errIf (jsTrim fd.owner = "") "owner" ErrMsg.required ++
  errIf (fd.projectStatus = "") "projectStatus" ErrMsg.required ++
  errIf (jsTrim fd.contactPerson = "") "contactPerson" ErrMsg.required ++
  errIf (jsTrim fd.ownerPhone = "") "ownerPhone" ErrMsg.required ++
  emailErrors fd ++
  errIf (blocked = true) "duplicate" ErrMsg.duplicate

/-- `validateForm`'s return value: `Object.keys(newErrors).length === 0`. -/
def validateForm (fd : FormData) (blocked : Bool) : Bool :=
  (validateErrors fd blocked).isEmpty

theorem mem_errIf {c : Prop} [Decidable c] {key : String} {msg : ErrMsg}
    {e : String × ErrMsg} : e ∈ errIf c key msg ↔ c ∧ e = (key, msg) := by
  unfold errIf
  split <;> simp_all

theorem errIf_eq_nil {c : Prop} [Decidable c] {key : String} {msg : ErrMsg} :
    errIf c key msg = [] ↔ ¬c := by
  unfold errIf
  split <;> simp_all

theorem mem_emailErrors_iff {fd : FormData} {e : String × ErrMsg} :
    e ∈ emailErrors fd ↔
      (jsTrim fd.companyEmail = "" ∧ e = ("companyEmail", ErrMsg.required)) ∨
      (jsTrim fd.companyEmail ≠ "" ∧ emailMatches fd.companyEmail = false ∧
        e = ("companyEmail", ErrMsg.invalidEmail)) := by
  unfold emailErrors
  split
  · simp_all
  · split <;> simp_all

theorem emailErrors_eq_nil {fd : FormData} :
    emailErrors fd = [] ↔
      (jsTrim fd.companyEmail ≠ "" ∧ emailMatches fd.companyEmail = true) := by
  unfold emailErrors
  split
  · simp_all
  · split <;> simp_all

theorem map_fst_errIf {c : Prop} [Decidable c] {key : String} {msg : ErrMsg} :
    List.Sublist ((errIf c key msg).map Prod.fst) [key] := by
  unfold errIf
  split <;> simp

theorem map_fst_emailErrors {fd : FormData} :
    List.Sublist ((emailErrors fd).map Prod.fst) ["companyEmail"] := by
  unfold emailErrors
  split
  · simp
  · split <;> simp

/-- A form submission whose `sector` is the blank string `" "`: empty after
trimming, but truthy in JavaScript, so `validateForm` raises no error. -/
def blankSectorForm : FormData :=
  { companyName := "Acme", sector := " ", subSector := "Agroprocessing"
    region := "Afar", zone := "Z1", woreda := "W1", approvalDate := "2024-01-01"
    owner := "O", advisorCompany := "", evaluator := "", grantedBy := ""
    contactPerson := "C", ownerPhone := "0911000000", companyEmail := "a@b.c"
    companyWebsite := "", projectStatus := "Planning", employeesMale := 0
    employeesFemale := 0, employeesTotal := 0 }

/-- Counterexample to C4 as stated: `blankSectorForm.sector` is empty after
trimming, yet `validateForm` produces no error at all and accepts the
submission - the code checks the select/date fields for JavaScript
truthiness without trimming. -/
theorem validateForm_no_trim_on_sector :
    jsTrim blankSectorForm.sector = "" ∧
    validateErrors blankSectorForm false = [] ∧
    validateForm blankSectorForm false = true := by
  refine ⟨by decide, by decide, by decide⟩

/-- C4 amended: the seven free-text fields produce their named `required`
error exactly when empty after trimming; the five select/date fields
(`sector`, `subSector`, `region`, `approvalDate`, `projectStatus`) produce
it exactly when literally empty (no trimming); a `companyEmail` non-empty
after trimming and not matching `/\S+@\S+\.\S+/` produces the named format
error, distinct from `required`; each field names at most one error (the
keys of `newErrors` are pairwise distinct); and validation fails iff one of
those errors exists or the duplicate-blocked flag is set. -/
theorem validateForm_characterization :
    ∀ (fd : FormData) (blocked : Bool),
      (("companyName", ErrMsg.required) ∈ validateErrors fd blocked ↔
        jsTrim fd.companyName = "") ∧
      (("sector", ErrMsg.required) ∈ validateErrors fd blocked ↔ fd.sector = "") ∧
      (("subSector", ErrMsg.required) ∈ validateErrors fd blocked ↔ fd.subSector = "") ∧
      (("region", ErrMsg.required) ∈ validateErrors fd blocked ↔ fd.region = "") ∧
      (("zone", ErrMsg.required) ∈ validateErrors fd blocked ↔ jsTrim fd.zone = "") ∧
      (("woreda", ErrMsg.required) ∈ validateErrors fd blocked ↔ jsTrim fd.woreda = "") ∧
      (("approvalDate", ErrMsg.required) ∈ validateErrors fd blocked ↔
        fd.approvalDate = "") ∧
      (("owner", ErrMsg.required) ∈ validateErrors fd blocked ↔ jsTrim fd.owner = "") ∧
      (("projectStatus", ErrMsg.required) ∈ validateErrors fd blocked ↔
        fd.projectStatus = "") ∧
      (("contactPerson", ErrMsg.required) ∈ validateErrors fd blocked ↔
        jsTrim fd.contactPerson = "") ∧
      (("ownerPhone", ErrMsg.required) ∈ validateErrors fd blocked ↔
        jsTrim fd.ownerPhone = "") ∧
      (("companyEmail", ErrMsg.required) ∈ validateErrors fd blocked ↔
        jsTrim fd.companyEmail = "") ∧
      (("companyEmail", ErrMsg.invalidEmail) ∈ validateErrors fd blocked ↔
        (jsTrim fd.companyEmail ≠ "" ∧ emailMatches fd.companyEmail = false)) ∧
      (("duplicate", ErrMsg.duplicate) ∈ validateErrors fd blocked ↔ blocked = true) ∧
      ErrMsg.invalidEmail ≠ ErrMsg.required ∧
      ((validateErrors fd blocked).map Prod.fst).Nodup ∧
      (validateForm fd blocked = false ↔
        (jsTrim fd.companyName = "" ∨ fd.sector = "" ∨ fd.subSector = "" ∨
         fd.region = "" ∨ jsTrim fd.zone = "" ∨ jsTrim fd.woreda = "" ∨
         fd.approvalDate = "" ∨ jsTrim fd.owner = "" ∨ fd.projectStatus = "" ∨
         jsTrim fd.contactPerson = "" ∨ jsTrim fd.ownerPhone = "" ∨
         jsTrim fd.companyEmail = "" ∨
         (jsTrim fd.companyEmail ≠ "" ∧ emailMatches fd.companyEmail = false) ∨
         blocked = true)) := by
  intro fd blocked
  refine ⟨?_, ?_, ?_, ?_, ?_, ?_, ?_, ?_, ?_, ?_, ?_, ?_, ?_, ?_, ?_, ?_, ?_⟩
  case _ => simp [validateErrors, mem_errIf, mem_emailErrors_iff, Prod.mk.injEq]
  case _ => simp [validateErrors, mem_errIf, mem_emailErrors_iff, Prod.mk.injEq]
  case _ => simp [validateErrors, mem_errIf, mem_emailErrors_iff, Prod.mk.injEq]
  case _ => simp [validateErrors, mem_errIf, mem_emailErrors_iff, Prod.mk.injEq]
  case _ => simp [validateErrors, mem_errIf, mem_emailErrors_iff, Prod.mk.injEq]
  case _ => simp [validateErrors, mem_errIf, mem_emailErrors_iff, Prod.mk.injEq]
  case _ => simp [validateErrors, mem_errIf, mem_emailErrors_iff, Prod.mk.injEq]
  case _ => simp [validateErrors, mem_errIf, mem_emailErrors_iff, Prod.mk.injEq]
  case _ => simp [validateErrors, mem_errIf, mem_emailErrors_iff, Prod.mk.injEq]
  case _ => simp [validateErrors, mem_errIf, mem_emailErrors_iff, Prod.mk.injEq]
  case _ => simp [validateErrors, mem_errIf, mem_emailErrors_iff, Prod.mk.injEq]
  case _ => simp [validateErrors, mem_errIf, mem_emailErrors_iff, Prod.mk.injEq]
  case _ => simp [validateErrors, mem_errIf, mem_emailErrors_iff, Prod.mk.injEq]
  case _ => simp [validateErrors, mem_errIf, mem_emailErrors_iff, Prod.mk.injEq]
  case _ => simp
  case _ =>
    have hsub : List.Sublist ((validateErrors fd blocked).map Prod.fst)
        ["companyName", "sector", "subSector", "region", "zone", "woreda",
         "approvalDate", "owner", "projectStatus", "contactPerson", "ownerPhone",
         "companyEmail", "duplicate"] := by
      unfold validateErrors
      simp only [List.map_append]
      exact ((((((((((((map_fst_errIf.append map_fst_errIf).append
        map_fst_errIf).append map_fst_errIf).append map_fst_errIf).append
        map_fst_errIf).append map_fst_errIf).append map_fst_errIf).append
        map_fst_errIf).append map_fst_errIf).append map_fst_errIf).append
        map_fst_emailErrors).append map_fst_errIf)
    exact List.Nodup.sublist hsub (by decide)
  case _ =>
    rw [show (validateForm fd blocked = false) ↔ ¬(validateErrors fd blocked = []) by
      simp [validateForm, List.isEmpty_iff]]
    simp only [validateErrors, List.append_eq_nil, errIf_eq_nil, emailErrors_eq_nil]
    by_cases h : jsTrim fd.companyEmail = ""
    · simp [h]
    · cases hm : emailMatches fd.companyEmail
      · simp [h, hm]
      · simp [h, hm]
        tauto

/-- Witness for C4 (amended): a submission with only `woreda` blank (after
trimming) and `contactPerson` literally empty fails validation with exactly
those two required errors; and `blankSectorForm` with the blocked flag set
fails on the duplicate entry. -/
theorem validateForm_characterization_witness :
    (("woreda", ErrMsg.required) ∈
      validateErrors { blankSectorForm with sector := "Health", woreda := "  " } false) ∧
    validateForm { blankSectorForm with sector := "Health", woreda := "  " } false = false ∧
    (("duplicate", ErrMsg.duplicate) ∈ validateErrors blankSectorForm true) ∧
    validateForm blankSectorForm true = false := by
  refine ⟨?_, ?_, ?_, ?_⟩
  · exact ((validateForm_characterization
      { blankSectorForm with sector := "Health", woreda := "  " } false).2.2.2.2.2.1).mpr
      (by decide)
  · exact ((validateForm_characterization
      { blankSectorForm with sector := "Health", woreda := "  " }
      false).2.2.2.2.2.2.2.2.2.2.2.2.2.2.2.2).mpr
      (by right; right; right; right; right; left; decide)
  · exact ((validateForm_characterization blankSectorForm true).2.2.2.2.2.2.2.2.2.2.2.2.2.1).mpr rfl
  · exact ((validateForm_characterization blankSectorForm
      true).2.2.2.2.2.2.2.2.2.2.2.2.2.2.2.2).mpr (by
        right; right; right; right; right; right; right; right; right; right
        right; right; right; rfl)

/-! ## The Record Store and Record Service (`server/database.js` and the
Express route handlers)

The `projects` table is a `List Project` (in insertion order); `id` is the
primary key.  The SQLite promise wrappers reject only on engine failures,
which are outside this model: under normal operation every operation
resolves, so the operations below are total. -/

/-- `dbOperations.createProject`: `INSERT` the row, resolve with
`{ ...project, id: project.id }` (the echoed input).  `id` is the table's
`TEXT PRIMARY KEY`, so inserting an id already present makes the real
`INSERT` fail with a UNIQUE-constraint error (the promise rejects and the
route handler answers 500 with nothing stored); that engine-failure path is
outside this success-path model, so every theorem about an insert carries an
explicit hypothesis that the inserted id is not already in the store. -/
def dbCreateProject (store : List Project) (project : Project) :
    List Project × Project :=
  (store ++ [project], project)

/-- The `UPDATE projects SET ... WHERE id = ?` row transformer: overwrite
all nineteen payload columns and `updatedAt`; `id` and `createdAt` are not
in the `SET` list. -/
def overwriteRow (r : Project) (input : FormData) (now : String) : Project :=
  { r with
    companyName := input.companyName, sector := input.sector
    subSector := input.subSector, region := input.region, zone := input.zone
    woreda := input.woreda, approvalDate := input.approvalDate
    owner := input.owner, advisorCompany := input.advisorCompany
    evaluator := input.evaluator, grantedBy := input.grantedBy
    contactPerson := input.contactPerson, ownerPhone := input.ownerPhone
    companyEmail := input.companyEmail, companyWebsite := input.companyWebsite
    projectStatus := input.projectStatus, employeesMale := input.employeesMale
    employeesFemale := input.employeesFemale, employeesTotal := input.employeesTotal
    updatedAt := now }

/-- `dbOperations.updateProject`: run the `UPDATE ... WHERE id = ?` (a no-op
on rows whose id differs; zero affected rows is not an error), then resolve
with `SELECT * FROM projects WHERE id = ?` - the refreshed row, or nothing
(`undefined`) when no row has that id. -/
def dbUpdateProject (store : List Project) (id : String) (input : FormData)
    (now : String) : List Project × Option Project :=
  let updated := store.map fun r => if r.id = id then overwriteRow r input now else r
  (updated, updated.find? fun r => r.id == id)

/-- `dbOperations.deleteProject`: run `DELETE FROM projects WHERE id = ?`
and resolve with the fixed success message - whether or not any row was
deleted. -/
def dbDeleteProject (store : List Project) (id : String) :
    List Project × String :=
  (store.filter fun r => r.id != id, "Project deleted successfully")

/-- Counterexample to C2 as stated: on the empty store, `deleteProject "42"`
resolves successfully with the deletion message (it does not fail with
`NotFound`), and `updateProject "42"` resolves successfully with no record
(`undefined`) rather than failing; the embedded operations are total because
the source rejects only on engine errors. -/
theorem delete_update_missing_id_succeed :
    dbDeleteProject [] "42" = ([], "Project deleted successfully") ∧
    dbUpdateProject [] "42" initialFormData "2024-06-01T00:00:00.000Z" = ([], none) :=
  ⟨rfl, rfl⟩

/-- C2 amended: for an id absent from the store, `deleteProject` resolves
successfully with the deletion message and `updateProject` resolves
successfully with no record (`undefined`); neither failure nor any change to
the store occurs. -/
theorem missing_id_silent (store : List Project) (id : String) (input : FormData)
    (now : String) (h : ∀ r ∈ store, r.id ≠ id) :
    dbDeleteProject store id = (store, "Project deleted successfully") ∧
    dbUpdateProject store id input now = (store, none) := by
  constructor
  · unfold dbDeleteProject
    have : store.filter (fun r => r.id != id) = store := by
      apply List.filter_eq_self.mpr
      intro r hr
      simpa using h r hr
    rw [this]
  · have hmap : (store.map fun r => if r.id = id then overwriteRow r input now else r)
        = store := by
      have hpt : ∀ r ∈ store,
          (if r.id = id then overwriteRow r input now else r) = r := by
        intro r hr
        simp [h r hr]
      calc (store.map fun r => if r.id = id then overwriteRow r input now else r)
          = store.map (fun r => r) := List.map_congr_left hpt
        _ = store := List.map_id' store
    have hfind : store.find? (fun r => r.id == id) = none := by
      apply List.find?_eq_none.mpr
      intro r hr
      simpa using h r hr
    simp only [dbUpdateProject, hmap, hfind]

/-- Witness for C2 (amended) on a non-empty store: deleting and updating the
absent id `"99"` leave the single-row store untouched. -/
theorem missing_id_silent_witness :
    dbDeleteProject [blankNameProject] "99" =
      ([blankNameProject], "Project deleted successfully") ∧
    dbUpdateProject [blankNameProject] "99" initialFormData "now" =
      ([blankNameProject], none) :=
  missing_id_silent [blankNameProject] "99" initialFormData "now"
    (by intro r hr; simp at hr; subst hr; decide)

/-- The nineteen payload fields of a stored record, as the frontend would
resubmit them ("its own current field values"). -/
def formOf (r : Project) : FormData :=
  { companyName := r.companyName, sector := r.sector, subSector := r.subSector
    region := r.region, zone := r.zone, woreda := r.woreda
    approvalDate := r.approvalDate, owner := r.owner
    advisorCompany := r.advisorCompany, evaluator := r.evaluator
    grantedBy := r.grantedBy, contactPerson := r.contactPerson
    ownerPhone := r.ownerPhone, companyEmail := r.companyEmail
    companyWebsite := r.companyWebsite, projectStatus := r.projectStatus
    employeesMale := r.employeesMale, employeesFemale := r.employeesFemale
    employeesTotal := r.employeesTotal }

/-- C7: for an id present in the store, `updateProject` returns the record
read back from the store after the write; it carries the old `id` and
`createdAt` unchanged, `updatedAt = now`, and every other field overwritten
with the input; rows with other ids are untouched; and resubmitting a
record's own current field values changes only `updatedAt`. -/
theorem updateProject_existing (store : List Project) (id : String)
    (input : FormData) (now : String) (r : Project)
    (h : store.find? (fun p => p.id == id) = some r) :
    ∃ u, (dbUpdateProject store id input now).2 = some u ∧
      u.id = r.id ∧ u.createdAt = r.createdAt ∧ u.updatedAt = now ∧
      u.companyName = input.companyName ∧ u.sector = input.sector ∧
      u.subSector = input.subSector ∧ u.region = input.region ∧
      u.zone = input.zone ∧ u.woreda = input.woreda ∧
      u.approvalDate = input.approvalDate ∧ u.owner = input.owner ∧
      u.advisorCompany = input.advisorCompany ∧ u.evaluator = input.evaluator ∧
      u.grantedBy = input.grantedBy ∧ u.contactPerson = input.contactPerson ∧
      u.ownerPhone = input.ownerPhone ∧ u.companyEmail = input.companyEmail ∧
      u.companyWebsite = input.companyWebsite ∧ u.projectStatus = input.projectStatus ∧
      u.employeesMale = input.employeesMale ∧ u.employeesFemale = input.employeesFemale ∧
      u.employeesTotal = input.employeesTotal ∧
      u ∈ (dbUpdateProject store id input now).1 ∧
      (∀ s ∈ store, s.id ≠ id → s ∈ (dbUpdateProject store id input now).1) ∧
      (input = formOf r → u = { r with updatedAt := now }) := by
  have hrid : r.id = id := by
    have := List.find?_some h
    simpa using this
  have hmem : r ∈ store := List.mem_of_find?_eq_some h
  refine ⟨overwriteRow r input now, ?_, ?_⟩
  · show ((store.map fun p => if p.id = id then overwriteRow p input now else p).find?
      fun p => p.id == id) = some (overwriteRow r input now)
    rw [List.find?_map]
    have hpf : ((fun p : Project => p.id == id) ∘
        (fun p => if p.id = id then overwriteRow p input now else p)) =
        (fun p : Project => p.id == id) := by
      funext p
      by_cases hp : p.id = id <;> simp [hp, overwriteRow]
    rw [hpf, h]
    simp [hrid]
  · refine ⟨rfl, rfl, rfl, rfl, rfl, rfl, rfl, rfl, rfl, rfl, rfl, rfl, rfl,
      rfl, rfl, rfl, rfl, rfl, rfl, rfl, rfl, rfl, ?_, ?_, ?_⟩
    · show overwriteRow r input now ∈
        store.map fun p => if p.id = id then overwriteRow p input now else p
      have : (if r.id = id then overwriteRow r input now else r) =
          overwriteRow r input now := by simp [hrid]
      rw [← this]
      exact List.mem_map_of_mem _ hmem
    · intro s hs hsid
      have : (if s.id = id then overwriteRow s input now else s) = s := by
        simp [hsid]
      rw [show (dbUpdateProject store id input now).1 =
          store.map (fun p => if p.id = id then overwriteRow p input now else p) from rfl]
      rw [← this]
      exact List.mem_map_of_mem _ hs
    · intro he
      subst he
      rfl

/-- Witness for C7: updating the single stored record with its own current
field values yields it back with only `updatedAt` renewed. -/
theorem updateProject_existing_witness :
    ∃ u, (dbUpdateProject [blankNameProject] "1" (formOf blankNameProject)
        "2025-01-01T00:00:00.000Z").2 = some u ∧
      u = { blankNameProject with updatedAt := "2025-01-01T00:00:00.000Z" } := by
  obtain ⟨u, hfind, -, -, -, -, -, -, -, -, -, -, -, -, -, -, -, -, -, -, -,
      -, -, -, -, hidem⟩ :=
    updateProject_existing [blankNameProject] "1" (formOf blankNameProject)
      "2025-01-01T00:00:00.000Z" blankNameProject (by decide)
  exact ⟨u, hfind, hidem.2 rfl⟩

/-! ## The `POST /api/projects` handler -/

/-- The parsed JSON request body of `POST /api/projects`: the nineteen
payload fields plus the three server-managed keys, present only when the
client sent them (`Option`).  The handler builds
`{ id: Date.now().toString(), ...req.body, createdAt: iso, updatedAt: iso }`,
so by object-spread semantics a body-supplied `id` wins over the generated
one, while `createdAt`/`updatedAt` are written after the spread and always
win over body-supplied values. -/
structure CreateBody where
  fields : FormData
  id : Option String := none
  createdAt : Option String := none
  updatedAt : Option String := none

/-- The `POST /api/projects` route handler (success path): build the merged
object, insert it via `dbOperations.createProject`, answer `201` with the
resolved record.  `nowMs` is the `Date.now()` call producing the id; `iso1`
and `iso2` are the two `new Date().toISOString()` calls for `createdAt` and
`updatedAt` (evaluated within the same object literal, so normally within
the same millisecond). -/
def postCreateProject (store : List Project) (body : CreateBody) (nowMs : Nat)
    (iso1 iso2 : String) : Nat × Project × List Project :=
  let newProject : Project :=
    { id := body.id.getD (toString nowMs)
      companyName := body.fields.companyName
      sector := body.fields.sector
      subSector := body.fields.subSector
      region := body.fields.region
      zone := body.fields.zone
      woreda := body.fields.woreda
      approvalDate := body.fields.approvalDate
      owner := body.fields.owner
      advisorCompany := body.fields.advisorCompany
      evaluator := body.fields.evaluator
      grantedBy := body.fields.grantedBy
      contactPerson := body.fields.contactPerson
      ownerPhone := body.fields.ownerPhone
      companyEmail := body.fields.companyEmail
      companyWebsite := body.fields.companyWebsite
      projectStatus := body.fields.projectStatus
      employeesMale := body.fields.employeesMale
      employeesFemale := body.fields.employeesFemale
      employeesTotal := body.fields.employeesTotal
      createdAt := iso1
      updatedAt := iso2 }
  let result := dbCreateProject store newProject
  (201, result.2, result.1)

/-- C6: for a creation body without `id`/`createdAt`/`updatedAt`, when the
two timestamp reads fall in the same millisecond (`iso1 = iso2`) and no
stored record already carries the wall-clock id, the handler answers `201`
with a record whose `id` is the freshly generated `Date.now().toString()`,
whose `createdAt` equals its `updatedAt`, whose payload fields echo the
body, and which is appended to the store, where its id occurs exactly
once. -/
theorem createProject_ok (store : List Project) (body : CreateBody)
    (nowMs : Nat) (iso1 iso2 : String) (status : Nat) (returned : Project)
    (store2 : List Project)
    (hid : body.id = none) (hiso : iso1 = iso2)
    (hfresh : ∀ r ∈ store, r.id ≠ toString nowMs)
    (hrun : postCreateProject store body nowMs iso1 iso2 = (status, returned, store2)) :
    status = 201 ∧
    returned.id = toString nowMs ∧
    returned.createdAt = iso1 ∧ returned.updatedAt = iso2 ∧
    returned.createdAt = returned.updatedAt ∧
    store2 = store ++ [returned] ∧
    returned ∈ store2 ∧
    (store2.filter fun r => r.id == returned.id).length = 1 ∧
    returned.companyName = body.fields.companyName ∧
    returned.employeesMale = body.fields.employeesMale ∧
    returned.employeesFemale = body.fields.employeesFemale ∧
    returned.employeesTotal = body.fields.employeesTotal := by
  simp only [postCreateProject, dbCreateProject, Prod.mk.injEq] at hrun
  obtain ⟨h1, h2, h3⟩ := hrun
  subst h1
  subst h2
  subst h3
  refine ⟨rfl, by simp [hid], rfl, rfl, by simp [hiso], rfl, by simp, ?_,
    rfl, rfl, rfl, rfl⟩
  rw [List.filter_append]
  have hnil : (store.filter fun r =>
      r.id == (Option.getD body.id (toString nowMs))) = [] := by
    rw [List.filter_eq_nil_iff]
    intro r hr
    simp [hid]
    exact hfresh r hr
  rw [hnil]
  simp

/-- A request body with no `id`, `createdAt` or `updatedAt` keys. -/
def plainBody : CreateBody :=
  { fields := blankSectorForm }

/-- Witness for C6: creating from the empty store with an id-free body at
time `1700000000000` ms. -/
theorem createProject_ok_witness :
    (postCreateProject [] plainBody 1700000000000
        "2023-11-14T22:13:20.000Z" "2023-11-14T22:13:20.000Z").1 = 201 ∧
    (postCreateProject [] plainBody 1700000000000
        "2023-11-14T22:13:20.000Z" "2023-11-14T22:13:20.000Z").2.1.id =
      "1700000000000" ∧
    (postCreateProject [] plainBody 1700000000000
        "2023-11-14T22:13:20.000Z" "2023-11-14T22:13:20.000Z").2.1.createdAt =
      (postCreateProject [] plainBody 1700000000000
        "2023-11-14T22:13:20.000Z" "2023-11-14T22:13:20.000Z").2.1.updatedAt := by
  obtain ⟨h1, h2, -, -, h5, -⟩ :=
    createProject_ok [] plainBody 1700000000000
      "2023-11-14T22:13:20.000Z" "2023-11-14T22:13:20.000Z" _ _ _
      rfl rfl (by intro r hr; exact absurd hr (List.not_mem_nil r)) rfl
  exact ⟨h1, h2.trans (by decide), h5⟩

/-- C10: when the request body carries an `id` that is not already a stored
primary key (otherwise the `INSERT` rejects on the `TEXT PRIMARY KEY`
constraint and the handler answers 500 with nothing stored), the spread
order makes the stored record keep the body-supplied id (the generated
`Date.now()` id is discarded), while `createdAt` and `updatedAt` are always
the server timestamps, whatever the body supplied for them; the new row is
appended and is the only one carrying the body id. -/
theorem createProject_body_id_wins (store : List Project) (body : CreateBody)
    (nowMs : Nat) (iso1 iso2 : String) (bid : String)
    (hid : body.id = some bid)
    (hfresh : ∀ r ∈ store, r.id ≠ bid) :
    (postCreateProject store body nowMs iso1 iso2).2.1.id = bid ∧
    (bid ≠ toString nowMs →
      (postCreateProject store body nowMs iso1 iso2).2.1.id ≠ toString nowMs) ∧
    (postCreateProject store body nowMs iso1 iso2).2.1.createdAt = iso1 ∧
    (postCreateProject store body nowMs iso1 iso2).2.1.updatedAt = iso2 ∧
    (postCreateProject store body nowMs iso1 iso2).2.2 =
      store ++ [(postCreateProject store body nowMs iso1 iso2).2.1] ∧
    ((postCreateProject store body nowMs iso1 iso2).2.2.filter
      fun r => r.id == bid).length = 1 := by
  refine ⟨by simp [postCreateProject, dbCreateProject, hid], ?_,
    rfl, rfl, rfl, ?_⟩
  · intro hne
    simpa [postCreateProject, dbCreateProject, hid] using hne
  · have hnil : (store.filter fun r => r.id == bid) = [] := by
      rw [List.filter_eq_nil_iff]
      intro r hr
      simpa using hfresh r hr
    simp only [postCreateProject, dbCreateProject, List.filter_append, hnil]
    simp [hid]

/-- A request body that carries its own `id` key `"7"` and a stale
`createdAt`. -/
def bodyWithClientId : CreateBody :=
  { fields := blankSectorForm, id := some "7", createdAt := some "1999-01-01T00:00:00.000Z" }

/-- Witness for C10: a body carrying `id = "7"` and a stale `createdAt`
yields a stored record with id `"7"` and the server timestamps. -/
theorem createProject_body_id_wins_witness :
    (postCreateProject [] bodyWithClientId 1700000000000
        "2023-11-14T22:13:20.000Z" "2023-11-14T22:13:20.001Z").2.1.id = "7" ∧
    (postCreateProject [] bodyWithClientId 1700000000000
        "2023-11-14T22:13:20.000Z" "2023-11-14T22:13:20.001Z").2.1.createdAt =
      "2023-11-14T22:13:20.000Z" ∧
    (postCreateProject [] bodyWithClientId 1700000000000
        "2023-11-14T22:13:20.000Z" "2023-11-14T22:13:20.001Z").2.1.updatedAt =
      "2023-11-14T22:13:20.001Z" := by
  obtain ⟨h1, -, h3, h4, -⟩ :=
    createProject_body_id_wins [] bodyWithClientId 1700000000000
      "2023-11-14T22:13:20.000Z" "2023-11-14T22:13:20.001Z" "7" rfl
      (by intro r hr; exact absurd hr (List.not_mem_nil r))
  exact ⟨h1, h3, h4⟩

/-! ## `GET /api/projects` (`dbOperations.getAllProjects`) -/

/-- The ordering of `ORDER BY createdAt DESC`: `a` precedes `b` when `a`'s
`createdAt` is at least `b`'s (SQLite compares `TEXT` columns as strings;
ISO-8601 timestamps compare chronologically). -/
def createdDesc (a b : Project) : Prop :=
  b.createdAt ≤ a.createdAt

instance : DecidableRel createdDesc := fun a b =>
  inferInstanceAs (Decidable (b.createdAt ≤ a.createdAt))

instance : IsTotal Project createdDesc :=
  ⟨fun a b => le_total b.createdAt a.createdAt⟩

instance : IsTrans Project createdDesc :=
  ⟨fun _ _ _ h1 h2 => le_trans h2 h1⟩

/-- `dbOperations.getAllProjects`:
`SELECT * FROM projects ORDER BY createdAt DESC` - the table's rows,
sorted by `createdAt` descending. -/
def dbGetAllProjects (store : List Project) : List Project :=
  List.insertionSort createdDesc store

/-- C8: `getAllProjects` returns all stored records (a permutation of the
table) ordered by `createdAt` descending (newest first). -/
theorem getAllProjects_sorted_desc (store : List Project) :
    (dbGetAllProjects store).Perm store ∧
    (dbGetAllProjects store).Sorted createdDesc :=
  ⟨List.perm_insertionSort createdDesc store,
   List.sorted_insertionSort createdDesc store⟩

/-! ## The Dashboard aggregation (`Dashboard` component) -/

/-- The `DashboardStats` object computed at the top of the `Dashboard`
component. -/
structure DashboardStats where
  totalProjects : Nat
  totalEmployees : Int
  maleEmployees : Int
  femaleEmployees : Int
  completedProjects : Nat
  inProgressProjects : Nat
  deriving DecidableEq, Repr

/-- `stats`: `projects.length`, three `reduce((sum, p) => sum + p.x, 0)`
sums, and two `filter(...).length` counts. -/
def dashboardStats (projects : List Project) : DashboardStats :=
  { totalProjects := projects.length
    totalEmployees := projects.foldl (fun sum p => sum + p.employeesTotal) 0
    maleEmployees := projects.foldl (fun sum p => sum + p.employeesMale) 0
    femaleEmployees := projects.foldl (fun sum p => sum + p.employeesFemale) 0
    completedProjects := (projects.filter fun p => p.projectStatus == "Completed").length
    inProgressProjects := (projects.filter fun p => p.projectStatus == "In Progress").length }

/-- `sectorData`: per sector of `metadata.sectors`, the name, the count of
matching projects, and the sum of their `employeesTotal`. -/
def sectorData (metadata : Metadata) (projects : List Project) :
    List (String × Nat × Int) :=
  metadata.sectors.map fun sector =>
    (sector, (projects.filter fun p => p.sector == sector).length,
     (projects.filter fun p => p.sector == sector).foldl
       (fun sum p => sum + p.employeesTotal) 0)

/-- `statusData`: per status of `metadata.projectStatuses`, the name and the
count of matching projects. -/
def statusData (metadata : Metadata) (projects : List Project) :
    List (String × Nat) :=
  metadata.projectStatuses.map fun status =>
    (status, (projects.filter fun p => p.projectStatus == status).length)

/-- `regionData`: per region of `metadata.regions`, the name, the count of
matching projects, and the sum of their `employeesTotal`. -/
def regionData (metadata : Metadata) (projects : List Project) :
    List (String × Nat × Int) :=
  metadata.regions.map fun region =>
    (region, (projects.filter fun p => p.region == region).length,
     (projects.filter fun p => p.region == region).foldl
       (fun sum p => sum + p.employeesTotal) 0)

theorem foldl_add_eq_sum_map (f : Project → Int) (l : List Project) :
    l.foldl (fun sum p => sum + f p) 0 = (l.map f).sum := by
  have h : ∀ a : Int, l.foldl (fun sum p => sum + f p) a = a + (l.map f).sum := by
    induction l with
    | nil => intro a; simp
    | cons x xs ih => intro a; simp [ih, add_assoc]
  simpa using h 0

/-- A stored record carrying a given id and `employeesTotal`. -/
def sampleWithTotal (id : String) (n : Int) : Project :=
  { blankNameProject with id := id, employeesTotal := n }

/-- C5: the aggregation semantics.  `totalProjects` is the record count; the
three employee statistics are the sums of the respective fields;
`completedProjects`/`inProgressProjects` count the `"Completed"`/
`"In Progress"` statuses; the per-sector, per-status and per-region series
give, for each enumerated name, the count of matching records and (for
sectors and regions) the sum of their `employeesTotal`.  Records with
`employeesTotal` 10, 20, 30 give `totalEmployees` 60. -/
theorem dashboard_aggregation (projects : List Project) (metadata : Metadata) :
    (dashboardStats projects).totalProjects = projects.length ∧
    (dashboardStats projects).totalEmployees =
      (projects.map Project.employeesTotal).sum ∧
    (dashboardStats projects).maleEmployees =
      (projects.map Project.employeesMale).sum ∧
    (dashboardStats projects).femaleEmployees =
      (projects.map Project.employeesFemale).sum ∧
    (dashboardStats projects).completedProjects =
      projects.countP (fun p => p.projectStatus == "Completed") ∧
    (dashboardStats projects).inProgressProjects =
      projects.countP (fun p => p.projectStatus == "In Progress") ∧
    sectorData metadata projects = metadata.sectors.map (fun s =>
      (s, projects.countP (fun p => p.sector == s),
       ((projects.filter fun p => p.sector == s).map Project.employeesTotal).sum)) ∧
    statusData metadata projects = metadata.projectStatuses.map (fun st =>
      (st, projects.countP (fun p => p.projectStatus == st))) ∧
    regionData metadata projects = metadata.regions.map (fun rg =>
      (rg, projects.countP (fun p => p.region == rg),
       ((projects.filter fun p => p.region == rg).map Project.employeesTotal).sum)) ∧
    (dashboardStats
      [sampleWithTotal "1" 10, sampleWithTotal "2" 20, sampleWithTotal "3" 30]
      ).totalEmployees = 60 := by
  refine ⟨rfl, foldl_add_eq_sum_map _ _, foldl_add_eq_sum_map _ _,
    foldl_add_eq_sum_map _ _, (List.countP_eq_length_filter _ _).symm,
    (List.countP_eq_length_filter _ _).symm, ?_, ?_, ?_, by decide⟩
  · unfold sectorData
    apply List.map_congr_left
    intro s _
    rw [List.countP_eq_length_filter, foldl_add_eq_sum_map]
  · unfold statusData
    apply List.map_congr_left
    intro st _
    rw [List.countP_eq_length_filter]
  · unfold regionData
    apply List.map_congr_left
    intro rg _
    rw [List.countP_eq_length_filter, foldl_add_eq_sum_map]

/-! ## The gender-percentage computation and division by zero -/

/-- A JavaScript number as produced by the gender-percentage arithmetic:
either an ordinary (here exactly-represented) value or one of the IEEE-754
special values. -/
inductive JSNum where
  | nan
  | posInf
  | negInf
  | val (q : ℚ)
  deriving DecidableEq

/-- JavaScript `/` on numbers: division by zero yields `NaN` for `0 / 0` and
a signed infinity otherwise; ordinary quotients are idealised as exact
rationals (no property proved here depends on float rounding). -/
def jsDiv (a b : ℚ) : JSNum :=
  if b = 0 then
    if a = 0 then JSNum.nan else if a > 0 then JSNum.posInf else JSNum.negInf
  else
    JSNum.val (a / b)

/-- JavaScript `*` by a non-zero finite constant, on the result of a
division: `NaN` propagates; an infinity keeps or flips its sign. -/
def jsMul (x : JSNum) (c : ℚ) : JSNum :=
  match x with
  | JSNum.nan => JSNum.nan
  | JSNum.posInf => if c > 0 then JSNum.posInf else if c < 0 then JSNum.negInf else JSNum.nan
  | JSNum.negInf => if c > 0 then JSNum.negInf else if c < 0 then JSNum.posInf else JSNum.nan
  | JSNum.val q => JSNum.val (q * c)

/-- `(stats.maleEmployees / stats.totalEmployees) * 100` of the Gender
Distribution card. -/
def malePercentage (projects : List Project) : JSNum :=
  jsMul (jsDiv ((dashboardStats projects).maleEmployees : ℚ)
    ((dashboardStats projects).totalEmployees : ℚ)) 100

/-- `(stats.femaleEmployees / stats.totalEmployees) * 100` of the Gender
Distribution card. -/
def femalePercentage (projects : List Project) : JSNum :=
  jsMul (jsDiv ((dashboardStats projects).femaleEmployees : ℚ)
    ((dashboardStats projects).totalEmployees : ℚ)) 100

/-- C9: on the empty record set `totalProjects` is `0`, and the
gender-percentage computation is a total function - no unhandled division
error - whose value at `totalEmployees = 0` is `NaN` (the IEEE-754 result of
`0 / 0`), matching the reference behavior. -/
theorem dashboard_empty_gender_nan :
    (dashboardStats []).totalProjects = 0 ∧
    (dashboardStats []).totalEmployees = 0 ∧
    malePercentage [] = JSNum.nan ∧
    femalePercentage [] = JSNum.nan := by
  refine ⟨rfl, rfl, ?_, ?_⟩ <;>
    simp [malePercentage, femalePercentage, dashboardStats, jsDiv, jsMul]

end Spec2Proof
